import Mathlib

/-!
Shallow embedding of the local/remote annotation reconciliation engine of the
SlicerAdapterSuperviselyCV plugin, together with theorems checking the
specification's claims against it.

The embedding follows the source files:
  * `AdapterSuperviselyCV/moduleLib/segmentation.py` — segment / segmentation /
    volume entity model (`segmentClass`, `segmentationClass`, `volumeClass`);
  * `ConnectToSupervisely/moduleLib/baseLogic.py` — the sync executor
    (`uploadAnnObjectChangesToServer`, `uploadTagsChangesToServer`,
    `changeJobStatus`, `_setVolumeIcon`).

Remote (server) calls and local file-system effects are recorded as explicit
traces; the server's minting of fresh uuid keys and numeric ids is
determinised by a counter.  Python exceptions are modelled by an `err` field
carried in the sync state: once set, the remaining steps of the pass do
nothing, mirroring exception propagation out of the method.
-/

namespace SlicerSly

/-- Value of a tag: Python stores strings or numbers here; `none` at the
`Option` level models Python `None` (presence-only tags). -/
inductive TagValue
  | str (s : String)
  | num (n : Int)
deriving DecidableEq

/-- A volume tag as built by the UI handlers in `baseLogic.py`
(`tag = {"name": ..., "value": ...}`). -/
structure Tag where
  name : String
  value : Option TagValue
deriving DecidableEq

/-- A tag attached to the annotation snapshot (`self.ann.tags`): carries the
tag-meta name, the value, and the uuid key (`annTag.key()`). -/
structure AnnTag where
  name : String
  value : Option TagValue
  key : String
deriving DecidableEq

/-- An object of the annotation snapshot (`self.ann` objects), identified by
its uuid key. -/
structure AnnObject where
  key : String
  className : String
deriving DecidableEq

/-- The annotation snapshot (`self.ann`). -/
structure Ann where
  objects : List AnnObject
  tags : List AnnTag
deriving DecidableEq

/-- The persisted key ↔ id map (`self.keyIdMap`), three independent
namespaces, each a list of (uuid key, server id) bindings. -/
structure KeyIdMap where
  objects : List (String × Nat)
  figures : List (String × Nat)
  tags : List (String × Nat)
deriving DecidableEq

/-- `keyIdMap.get_object_id(key)`. -/
def KeyIdMap.getObjectId (m : KeyIdMap) (k : String) : Option Nat :=
  (m.objects.find? (fun p => p.1 = k)).map Prod.snd

/-- `keyIdMap.get_object_key(id)`; a `none` id matches no binding. -/
def KeyIdMap.getObjectKey (m : KeyIdMap) (i : Option Nat) : Option String :=
  match i with
  | none => none
  | some n => (m.objects.find? (fun p => p.2 = n)).map Prod.fst

/-- `keyIdMap.get_figure_id(key)`. -/
def KeyIdMap.getFigureId (m : KeyIdMap) (k : String) : Option Nat :=
  (m.figures.find? (fun p => p.1 = k)).map Prod.snd

/-- `keyIdMap.get_figure_key(id)`. -/
def KeyIdMap.getFigureKey (m : KeyIdMap) (i : Option Nat) : Option String :=
  match i with
  | none => none
  | some n => (m.figures.find? (fun p => p.2 = n)).map Prod.fst

/-- `keyIdMap.get_tag_id(key)`. -/
def KeyIdMap.getTagId (m : KeyIdMap) (k : String) : Option Nat :=
  (m.tags.find? (fun p => p.1 = k)).map Prod.snd

/-- `keyIdMap.remove_object(id=object_id)`: drop the binding carrying this
server id; a `none` id removes nothing. -/
def KeyIdMap.removeObjectById (m : KeyIdMap) (i : Option Nat) : KeyIdMap :=
  { m with objects := m.objects.filter (fun p => decide (some p.2 ≠ i)) }

/-- `keyIdMap.remove_figure(key=key)`. -/
def KeyIdMap.removeFigureByKey (m : KeyIdMap) (k : String) : KeyIdMap :=
  { m with figures := m.figures.filter (fun p => decide (p.1 ≠ k)) }

/-- `keyIdMap.remove_tag(tagKey)`. -/
def KeyIdMap.removeTagByKey (m : KeyIdMap) (k : String) : KeyIdMap :=
  { m with tags := m.tags.filter (fun p => decide (p.1 ≠ k)) }

/-- `keyIdMap.add_tag(key, id)`. -/
def KeyIdMap.addTag (m : KeyIdMap) (k : String) (i : Nat) : KeyIdMap :=
  { m with tags := m.tags ++ [(k, i)] }

/-- A segment (`segmentClass`): `path` is the local mask file, `maskKey` the
remote figure uuid (`None` while unsynced), `objectId` the server id of the
parent object, `delete` the marked-for-deletion flag.  `baseSeg` stands for
the Slicer vtk segment handle (`self.segment`), and `maskEmpty` for whether
the mask file at `path` contains no voxels (which makes
`Mask3D.create_from_file` raise `ValueError ... Instead got [0]`). -/
structure Segment where
  path : String
  name : String
  maskKey : Option String
  objectId : Option Nat
  delete : Bool
  baseSeg : Nat
  maskEmpty : Bool
deriving DecidableEq

/-- A segmentation (`segmentationClass`): the tracked `segments` list plus
`nodeSegments`, the base-segment handles currently present in the Slicer
segmentation node (`GetNthSegment` over the node). -/
structure Segmentation where
  name : String
  segments : List Segment
  nodeSegments : List Nat
deriving DecidableEq

/-- The volume (`volumeClass`): segmentations, tags and the dirty flag. -/
structure Volume where
  name : String
  segmentations : List Segmentation
  tags : List Tag
  tagsChanged : Bool
deriving DecidableEq

/-- `segmentationClass.markSegmentsForDeletion`: every tracked segment whose
base segment no longer appears in the segmentation node gets
`delete = True`. -/
def markSegmentsForDeletion (sg : Segmentation) : Segmentation :=
  { sg with
    segments := sg.segments.map (fun s =>
      if s.baseSeg ∈ sg.nodeSegments then s else { s with delete := true }) }

/-- `volumeClass.removeTag(name, value)`: drop every tag dict equal to
`{"name": name, "value": value}` and set `tagsChanged = True`. -/
def Volume.removeTag (v : Volume) (name : String) (value : Option TagValue) :
    Volume :=
  { v with
    tags := v.tags.filter (fun t => decide (t ≠ ⟨name, value⟩)),
    tagsChanged := true }

/-- `volumeClass.assignTag(tag)`. -/
def Volume.assignTag (v : Volume) (t : Tag) : Volume :=
  { v with tags := v.tags ++ [t], tagsChanged := true }

/-- Errors a sync pass can raise, mirroring the Python exceptions:
`validation` for the renamed empty-mask `ValueError`, `typeError` for
`UUID(None)`, `indexError` for `[...][0]` on an empty list, and
`attributeError` for `.sly_id` on a missing tag meta. -/
inductive SyncError
  | validation (msg : String)
  | typeError (msg : String)
  | indexError
  | attributeError
deriving DecidableEq

/-- Remote (server) calls issued by the sync executor, in issue order. -/
inductive RemoteCall
  | getVolumeInfo (name : String)
  | appendAnn (volumeName segName : String)
  | uploadGeometries (figureKey : String)
  | removeBatch (ids : List (Option Nat))
  | tagRemove (tagId : Option Nat)
  | tagAppend (tagMetaId : Nat) (value : Option TagValue)
  | setStatus (status : String)
deriving DecidableEq

/-- Local durable-storage effects: mask-file renames and the two dump_json
writes (annotation snapshot, key ↔ id map). -/
inductive LocalCall
  | rename (oldPath newPath : String)
  | dumpAnn
  | dumpKeyIdMap
deriving DecidableEq

/-- State threaded through a sync pass: the in-memory entities, the
annotation snapshot, the key ↔ id map, the project tag metas
(`projectMeta.tag_metas`, name ↦ `sly_id`), a counter determinising the
server-minted uuids and ids, the two effect traces, and the pending
exception (`err`). -/
structure SyncState where
  volume : Volume
  ann : Ann
  keyIdMap : KeyIdMap
  projectTagMetas : List (String × Nat)
  fresh : Nat
  remoteCalls : List RemoteCall
  localCalls : List LocalCall
  err : Option SyncError
deriving DecidableEq

/-- uuid figure key minted by the server for the `n`-th creation. -/
def mintFigureKey (n : Nat) : String := "figure-key-" ++ toString n

/-- uuid object key minted by the server for the `n`-th creation. -/
def mintObjectKey (n : Nat) : String := "object-key-" ++ toString n

/-- uuid key of a freshly built `VolumeTag` (`newTag.key()`). -/
def mintTagKey (n : Nat) : String := "tag-key-" ++ toString n

/-- `os.path.dirname` restricted to `/`-separated paths. -/
def dirname (p : String) : String :=
  String.intercalate "/" ((p.splitOn "/").dropLast)

/-- One iteration of the creation/update loop of
`uploadAnnObjectChangesToServer` for a single segment.  A segment marked for
deletion is skipped here; a segment with a `maskKey` gets a geometry
re-upload keyed by it; a segment without one is created remotely: the server
mints figure/object keys and an object id into the key ↔ id map, the segment
records them, the mask file is renamed to the minted figure key, and the
snapshot and map are dumped.  An empty mask raises the renamed
`ValueError`. -/
def syncSegment (volumeName segmentationName : String) (s : Segment)
    (st : SyncState) : Segment × SyncState :=
  if st.err.isSome then (s, st)
  else if s.delete then (s, st)
  else
    match s.maskKey with
    | some k =>
      (s, { st with remoteCalls := st.remoteCalls ++ [RemoteCall.uploadGeometries k] })
    | none =>
      if s.maskEmpty then
        (s, { st with
          err := some (SyncError.validation ("Segment " ++ s.name ++ " is empty")) })
      else
        let figKey := mintFigureKey st.fresh
        let objKey := mintObjectKey st.fresh
        let km : KeyIdMap :=
          { st.keyIdMap with
            figures := st.keyIdMap.figures ++ [(figKey, st.fresh)],
            objects := st.keyIdMap.objects ++ [(objKey, st.fresh)] }
        let newPath := dirname s.path ++ "/" ++ figKey ++ ".nrrd"
        let s' : Segment :=
          { s with maskKey := some figKey, objectId := km.getObjectId objKey,
                   path := newPath }
        (s', { st with
          ann := { st.ann with
            objects := st.ann.objects ++ [⟨objKey, segmentationName⟩] },
          keyIdMap := km,
          fresh := st.fresh + 1,
          remoteCalls := st.remoteCalls ++
            [RemoteCall.getVolumeInfo volumeName,
             RemoteCall.appendAnn volumeName s.name],
          localCalls := st.localCalls ++
            [LocalCall.rename s.path newPath, LocalCall.dumpAnn,
             LocalCall.dumpKeyIdMap] })

/-- The creation/update loop over one segmentation's segments, rebuilding the
updated segment list. -/
def syncSegments (volumeName segmentationName : String) :
    List Segment → SyncState → List Segment × SyncState
  | [], st => ([], st)
  | s :: rest, st =>
    let p := syncSegment volumeName segmentationName s st
    let q := syncSegments volumeName segmentationName rest p.2
    (p.1 :: q.1, q.2)

/-- The creation/update loop over all segmentations. -/
def syncSegmentations (volumeName : String) :
    List Segmentation → SyncState → List Segmentation × SyncState
  | [], st => ([], st)
  | sg :: rest, st =>
    let p := syncSegments volumeName sg.name sg.segments st
    let q := syncSegmentations volumeName rest p.2
    ({ sg with segments := p.1 } :: q.1, q.2)

/-- The collection loop of the removal phase: for each segment with
`delete = True` it gathers `objectId`, the object key resolved from the map,
and `UUID(maskKey)` — which raises `TypeError` when `maskKey` is `None`. -/
def collectRemovals (km : KeyIdMap) :
    List Segment →
      Except SyncError (List (Option Nat) × List (Option String) × List String)
  | [] => Except.ok ([], [], [])
  | s :: rest =>
    if s.delete then
      match s.maskKey with
      | none => Except.error (SyncError.typeError "UUID argument must not be None")
      | some k =>
        match collectRemovals km rest with
        | Except.error e => Except.error e
        | Except.ok (ids, keys, figKeys) =>
          Except.ok (s.objectId :: ids, km.getObjectKey s.objectId :: keys,
            k :: figKeys)
    else collectRemovals km rest

/-- The creation/update phase of `uploadAnnObjectChangesToServer`: run the
loop over all segmentations and store the rebuilt segment lists back into the
volume. -/
def creationPhase (st : SyncState) : SyncState :=
  let p := syncSegmentations st.volume.name st.volume.segmentations st
  { p.2 with volume := { p.2.volume with segmentations := p.1 } }

/-- The removal phase of `uploadAnnObjectChangesToServer`: when any segment
is marked for deletion, one batched `remove_batch` remote call, removal of
those objects and figures from the snapshot and the key ↔ id map, the two
dumps, and dropping the segments from their segmentations.  Skipped when the
creation phase raised. -/
def removalPhase (st1 : SyncState) : SyncState :=
  if st1.err.isSome then st1
  else
    match collectRemovals st1.keyIdMap
        ((st1.volume.segmentations.map Segmentation.segments).flatten) with
    | Except.error e => { st1 with err := some e }
    | Except.ok (ids, keys, figKeys) =>
      if ids.isEmpty then st1
      else
        { st1 with
          volume := { st1.volume with
            segmentations := st1.volume.segmentations.map (fun sg =>
              { sg with segments := sg.segments.filter (fun s => !s.delete) }) },
          ann := { st1.ann with
            objects := st1.ann.objects.filter
              (fun o => decide (some o.key ∉ keys)) },
          keyIdMap :=
            figKeys.foldl (fun m k => m.removeFigureByKey k)
              (ids.foldl (fun m i => m.removeObjectById i) st1.keyIdMap),
          remoteCalls := st1.remoteCalls ++ [RemoteCall.removeBatch ids],
          localCalls := st1.localCalls ++ [LocalCall.dumpAnn, LocalCall.dumpKeyIdMap] }

/-- `uploadAnnObjectChangesToServer`: the creation/update loop over all
segments, then the batched removal phase. -/
def uploadAnnObjectChangesToServer (st : SyncState) : SyncState :=
  removalPhase (creationPhase st)

/-- `set((tag["name"], tag["value"]) for tag in self.volume.tags)`, as the
deduplicated list of pairs in first-occurrence order. -/
def volumeTagPairs (tags : List Tag) : List (String × Option TagValue) :=
  (tags.map (fun t => (t.name, t.value))).dedup

/-- `set((tag.meta.name, tag.value) for tag in self.ann.tags)`. -/
def annTagPairs (tags : List AnnTag) : List (String × Option TagValue) :=
  (tags.map (fun t => (t.name, t.value))).dedup

/-- `tagsToAdd = volumeTagsSet - annTagsSet`. -/
def tagsToAddL (vtags : List Tag) (atags : List AnnTag) :
    List (String × Option TagValue) :=
  (volumeTagPairs vtags).filter (fun p => decide (p ∉ annTagPairs atags))

/-- `tagsToRemove = annTagsSet - volumeTagsSet`. -/
def tagsToRemoveL (vtags : List Tag) (atags : List AnnTag) :
    List (String × Option TagValue) :=
  (annTagPairs atags).filter (fun p => decide (p ∉ volumeTagPairs vtags))

/-- The removal loop of `uploadTagsChangesToServer`: for each pair to remove,
look up the first matching annotation tag's key (`[...][0]`, `IndexError`
when no tag matches), resolve its id, issue the remote removal, unbind it
from the map, and collect the key for the later snapshot update. -/
def processTagRemovals :
    List (String × Option TagValue) → SyncState → List String →
      SyncState × List String
  | [], st, forDelete => (st, forDelete)
  | (n, v) :: rest, st, forDelete =>
    if st.err.isSome then (st, forDelete)
    else
      match st.ann.tags.find? (fun a => decide (a.name = n ∧ a.value = v)) with
      | none => ({ st with err := some SyncError.indexError }, forDelete)
      | some a =>
        processTagRemovals rest
          { st with
            remoteCalls := st.remoteCalls ++
              [RemoteCall.tagRemove (st.keyIdMap.getTagId a.key)],
            keyIdMap := st.keyIdMap.removeTagByKey a.key }
          (forDelete ++ [a.key])

/-- The addition loop of `uploadTagsChangesToServer`: for each pair to add,
resolve the tag meta (`.sly_id` on a missing meta raises `AttributeError`),
issue the remote creation, bind the minted id under the new tag's key, and
collect the new annotation tag. -/
def processTagAdds :
    List (String × Option TagValue) → SyncState → List AnnTag →
      SyncState × List AnnTag
  | [], st, newTags => (st, newTags)
  | (n, v) :: rest, st, newTags =>
    if st.err.isSome then (st, newTags)
    else
      match st.projectTagMetas.find? (fun p => p.1 = n) with
      | none => ({ st with err := some SyncError.attributeError }, newTags)
      | some meta =>
        processTagAdds rest
          { st with
            remoteCalls := st.remoteCalls ++ [RemoteCall.tagAppend meta.2 v],
            keyIdMap := st.keyIdMap.addTag (mintTagKey st.fresh) st.fresh,
            fresh := st.fresh + 1 }
          (newTags ++ [⟨n, v, mintTagKey st.fresh⟩])

/-- `uploadTagsChangesToServer`: a no-op when `tagsChanged` is false;
otherwise diff the current volume tags against the snapshot tags, run the
removal and addition loops, and — when no exception was raised — update the
snapshot's tag list, dump snapshot and map, and clear `tagsChanged`. -/
def uploadTagsChangesToServer (st : SyncState) : SyncState :=
  if st.volume.tagsChanged then
    let p := processTagRemovals (tagsToRemoveL st.volume.tags st.ann.tags) st []
    let q := processTagAdds (tagsToAddL st.volume.tags st.ann.tags) p.1 []
    let st1 := q.1
    if st1.err.isSome then st1
    else
      { st1 with
        ann := { st1.ann with
          tags := (st1.ann.tags.filter
            (fun a => decide (a.key ∉ p.2))) ++ q.2 },
        localCalls := st1.localCalls ++ [LocalCall.dumpAnn, LocalCall.dumpKeyIdMap],
        volume := { st1.volume with tagsChanged := false } }
  else st

/-- `changeJobStatus(status)`: the remote `set_status` call is issued only
from the three-branch transition check on the current remote status. -/
def changeJobStatus (currentStatus status : String) : List RemoteCall :=
  if currentStatus = "pending" ∧ (status = "in_progress" ∨ status = "stopped") then
    [RemoteCall.setStatus status]
  else if currentStatus = "in_progress" ∧ (status = "on_review" ∨ status = "stopped") then
    [RemoteCall.setStatus status]
  else if currentStatus = "on_review" ∧ (status = "completed" ∨ status = "stopped") then
    [RemoteCall.setStatus status]
  else []

/-- The icons `_setVolumeIcon` can assign. -/
inductive Icon
  | accepted
  | rejected
  | done
  | noneIcon
deriving DecidableEq

/-- One entity of `self.activeJob.entities` as used by `_setVolumeIcon`. -/
structure Entity where
  name : String
  reviewStatus : String
deriving DecidableEq

/-- The `if/elif` chain of `_setVolumeIcon`'s loop body: an icon is assigned
for the four known statuses; any other status leaves the `icon` local
variable at whatever the previous iteration assigned. -/
def statusIconUpdate (prev : Option Icon) (status : String) : Option Icon :=
  if status = "accepted" then some Icon.accepted
  else if status = "rejected" then some Icon.rejected
  else if status = "done" then some Icon.done
  else if status = "none" then some Icon.noneIcon
  else prev

/-- The loop of `_setVolumeIcon`, accumulating the icon set for each entity;
referencing the never-assigned `icon` local raises `UnboundLocalError`. -/
def setVolumeIconGo :
    List Entity → Option Icon → List (String × Icon) →
      Except String (List (String × Icon))
  | [], _, acc => Except.ok acc.reverse
  | e :: rest, prev, acc =>
    match statusIconUpdate prev e.reviewStatus with
    | none => Except.error "UnboundLocalError: local variable icon"
    | some ic => setVolumeIconGo rest (some ic) ((e.name, ic) :: acc)

/-- `_setVolumeIcon`: assign a review-status icon to every entity in turn. -/
def setVolumeIcon (entities : List Entity) : Except String (List (String × Icon)) :=
  setVolumeIconGo entities none []

/-- The job-status transitions along which `changeJobStatus` issues a remote
`set_status` call, as (current status, requested status) pairs. -/
def allowedJobTransitions : List (String × String) :=
  [("pending", "in_progress"), ("pending", "stopped"),
   ("in_progress", "on_review"), ("in_progress", "stopped"),
   ("on_review", "completed"), ("on_review", "stopped")]

/-- Claim C9: `removeTag` removes exactly the tags whose name and value both equal
the arguments (all duplicates at once) and unconditionally sets the dirty
flag, even when nothing matched. -/
theorem removeTag_removes_matching_and_sets_dirty (v : Volume) (n : String)
    (val : Option TagValue) :
    (v.removeTag n val).tags
        = v.tags.filter (fun t => decide (¬ (t.name = n ∧ t.value = val)))
    ∧ (v.removeTag n val).tagsChanged = true := by
  refine ⟨?_, rfl⟩
  unfold Volume.removeTag
  simp only
  apply List.filter_congr
  intro t _
  rcases t with ⟨tn, tv⟩
  simp [Tag.mk.injEq, decide_eq_decide]

/-- Claim C10: `changeJobStatus` issues the remote status update exactly along the
transitions pending → in_progress/stopped, in_progress → on_review/stopped,
on_review → completed/stopped, and performs no remote update for any other
(current, requested) pair. -/
theorem changeJobStatus_only_allowed_transitions (cur req : String) :
    changeJobStatus cur req
      = if (cur, req) ∈ allowedJobTransitions then [RemoteCall.setStatus req]
        else [] := by
  unfold changeJobStatus allowedJobTransitions
  simp only [List.mem_cons, List.not_mem_nil, or_false, Prod.mk.injEq]
  split_ifs <;> (simp_all; try tauto)

/-- Claim C1: the tag diff of `uploadTagsChangesToServer`, viewed as sets of
(name, value) pairs, satisfies `tagsToAdd = A \ B` and `tagsToRemove = B \ A`
for `A` the volume's current tags and `B` the snapshot's last-synced tags;
hence the two are disjoint and `(B − tagsToRemove) ∪ tagsToAdd = A`. -/
theorem tagDiff_set_difference (vtags : List Tag) (atags : List AnnTag) :
    (tagsToAddL vtags atags).toFinset
        = (volumeTagPairs vtags).toFinset \ (annTagPairs atags).toFinset
    ∧ (tagsToRemoveL vtags atags).toFinset
        = (annTagPairs atags).toFinset \ (volumeTagPairs vtags).toFinset
    ∧ Disjoint (tagsToAddL vtags atags).toFinset
        (tagsToRemoveL vtags atags).toFinset
    ∧ ((annTagPairs atags).toFinset \ (tagsToRemoveL vtags atags).toFinset)
          ∪ (tagsToAddL vtags atags).toFinset
        = (volumeTagPairs vtags).toFinset := by
  have hadd : (tagsToAddL vtags atags).toFinset
      = (volumeTagPairs vtags).toFinset \ (annTagPairs atags).toFinset := by
    ext p
    simp [tagsToAddL, List.mem_filter]
  have hrem : (tagsToRemoveL vtags atags).toFinset
      = (annTagPairs atags).toFinset \ (volumeTagPairs vtags).toFinset := by
    ext p
    simp [tagsToRemoveL, List.mem_filter]
  refine ⟨hadd, hrem, ?_, ?_⟩
  · rw [hadd, hrem]
    exact disjoint_sdiff_sdiff
  · rw [hadd, hrem, Finset.sdiff_sdiff_self_left, Finset.inter_comm]
    exact sup_inf_sdiff _ _

/-- The icon each of the four known review statuses maps to. -/
def knownStatusIcon (s : String) : Icon :=
  if s = "accepted" then Icon.accepted
  else if s = "rejected" then Icon.rejected
  else if s = "done" then Icon.done
  else Icon.noneIcon

/-- The four review statuses `_setVolumeIcon` recognises. -/
def knownStatuses : List String := ["accepted", "rejected", "done", "none"]

theorem setVolumeIconGo_known (es : List Entity) :
    ∀ (prev : Option Icon) (acc : List (String × Icon)),
      (∀ e ∈ es, e.reviewStatus ∈ knownStatuses) →
      setVolumeIconGo es prev acc
        = Except.ok (acc.reverse
            ++ es.map (fun e => (e.name, knownStatusIcon e.reviewStatus))) := by
  induction es with
  | nil => intro prev acc _; simp [setVolumeIconGo]
  | cons e rest ih =>
    intro prev acc h
    have he : e.reviewStatus ∈ knownStatuses := h e (by simp)
    have hupd : statusIconUpdate prev e.reviewStatus
        = some (knownStatusIcon e.reviewStatus) := by
      simp only [knownStatuses, List.mem_cons, List.not_mem_nil, or_false] at he
      rcases he with h1 | h1 | h1 | h1 <;>
        simp [statusIconUpdate, knownStatusIcon, h1]
    have hr : ∀ e' ∈ rest, e'.reviewStatus ∈ knownStatuses := by
      intro e' he'
      exact h e' (by simp [he'])
    simp [setVolumeIconGo, hupd, ih _ _ hr]

/-- Claim C8 counterexample: on a single entity with the unrecognized status
"reviewing", `_setVolumeIcon` does not fall back to the "none" icon — it
fails (the `icon` local variable is referenced without ever having been
assigned). -/
theorem setVolumeIcon_unknown_status_cex :
    setVolumeIcon [⟨"vol1", "reviewing"⟩]
        ≠ Except.ok [("vol1", Icon.noneIcon)]
    ∧ setVolumeIcon [⟨"vol1", "reviewing"⟩]
        = Except.error "UnboundLocalError: local variable icon" := by
  refine ⟨fun hcontra => ?_, rfl⟩
  rw [show setVolumeIcon [⟨"vol1", "reviewing"⟩]
      = Except.error "UnboundLocalError: local variable icon" from rfl] at hcontra
  exact Except.noConfusion hcontra

/-- Claim C8 amended: the review-status-to-icon projection handles exactly the four
known statuses, mapping each entity to its corresponding icon; an
unrecognized status is not handled at all — with no previously assigned icon
the projection fails with an unbound-variable error, and otherwise it
silently reuses the previous entity's icon; there is no fallback to the
"none" icon and no warning for the unrecognized status. -/
theorem setVolumeIcon_total_on_known_statuses (es : List Entity)
    (h : ∀ e ∈ es, e.reviewStatus ∈ knownStatuses) :
    setVolumeIcon es
        = Except.ok (es.map (fun e => (e.name, knownStatusIcon e.reviewStatus)))
    ∧ setVolumeIcon [⟨"vol1", "reviewing"⟩]
        = Except.error "UnboundLocalError: local variable icon"
    ∧ setVolumeIcon [⟨"vol1", "accepted"⟩, ⟨"vol2", "reviewing"⟩]
        = Except.ok [("vol1", Icon.accepted), ("vol2", Icon.accepted)] := by
  refine ⟨?_, rfl, rfl⟩
  have := setVolumeIconGo_known es none [] h
  simpa [setVolumeIcon] using this

/-- Witness for the amended C8 theorem, at a list covering all four known
statuses. -/
theorem setVolumeIcon_total_on_known_statuses_witness :
    setVolumeIcon
        [⟨"v1", "accepted"⟩, ⟨"v2", "rejected"⟩, ⟨"v3", "done"⟩, ⟨"v4", "none"⟩]
      = Except.ok [("v1", Icon.accepted), ("v2", Icon.rejected),
          ("v3", Icon.done), ("v4", Icon.noneIcon)] := by
  have h := (setVolumeIcon_total_on_known_statuses
    [⟨"v1", "accepted"⟩, ⟨"v2", "rejected"⟩, ⟨"v3", "done"⟩, ⟨"v4", "none"⟩]
    (by decide)).1
  simpa [knownStatusIcon] using h

/-- A tracked segment that was never created server-side (`maskKey` and
`objectId` both null) whose base segment has been removed from the Slicer
segmentation node. -/
def segNeverSynced : Segment :=
  { path := "/work/maskA.nrrd", name := "segA", maskKey := none,
    objectId := none, delete := false, baseSeg := 5, maskEmpty := false }

/-- A segmentation tracking `segNeverSynced` while its node no longer holds
any base segment. -/
def segmNeverSynced : Segmentation :=
  { name := "Lung", segments := [segNeverSynced], nodeSegments := [] }

/-- A sync state whose volume holds one never-synced segment already marked
for deletion. -/
def stNeverSyncedDelete : SyncState :=
  { volume :=
      { name := "CT001",
        segmentations :=
          [{ name := "Lung",
             segments := [{ segNeverSynced with delete := true }],
             nodeSegments := [] }],
        tags := [], tagsChanged := false },
    ann := { objects := [], tags := [] },
    keyIdMap := { objects := [], figures := [], tags := [] },
    projectTagMetas := [], fresh := 0, remoteCalls := [], localCalls := [],
    err := none }

/-- Claim C3 counterexample: `markSegmentsForDeletion` marks a segment with a null
`objectId` (and null `maskKey`) for deletion, so the claimed invariant
"markedForDeletion implies non-null remoteObjectId" fails on the code. -/
theorem markedForDeletion_invariant_cex :
    ¬ (∀ s ∈ (markSegmentsForDeletion segmNeverSynced).segments,
        s.delete = true → s.objectId ≠ none) := by
  intro h
  exact (h { segNeverSynced with delete := true } (by decide) (by decide)) rfl

/-- Claim C3 amended: `markSegmentsForDeletion` marks a segment for deletion based
solely on its base segment's absence from the segmentation node, regardless
of `remoteObjectId`/`remoteKey`, so a never-synced segment can carry
`markedForDeletion = true`; for such a segment the object-sync pass does not
discard it locally without remote interaction — collecting it for removal
fails with a `TypeError` (`UUID(None)`) before the batched removal call is
issued, leaving the segment in place and the pass errored. -/
theorem markedForDeletion_regardless_of_objectId (sg : Segmentation)
    (s : Segment) (hs : s ∈ sg.segments) (habs : s.baseSeg ∉ sg.nodeSegments) :
    { s with delete := true } ∈ (markSegmentsForDeletion sg).segments
    ∧ (uploadAnnObjectChangesToServer stNeverSyncedDelete).err
        = some (SyncError.typeError "UUID argument must not be None")
    ∧ (uploadAnnObjectChangesToServer stNeverSyncedDelete).remoteCalls = []
    ∧ (uploadAnnObjectChangesToServer stNeverSyncedDelete).volume
        = stNeverSyncedDelete.volume := by
  refine ⟨?_, rfl, rfl, rfl⟩
  unfold markSegmentsForDeletion
  simp only
  have : ({ s with delete := true } : Segment)
      = (fun s' => if s'.baseSeg ∈ sg.nodeSegments then s'
          else { s' with delete := true }) s := by
    simp [habs]
  rw [this]
  exact List.mem_map_of_mem _ hs

/-- Witness for the amended C3 theorem at the concrete never-synced
segment. -/
theorem markedForDeletion_regardless_of_objectId_witness :
    { segNeverSynced with delete := true }
      ∈ (markSegmentsForDeletion segmNeverSynced).segments := by
  exact (markedForDeletion_regardless_of_objectId segmNeverSynced segNeverSynced
    (by decide) (by decide)).1

/-- A new segment whose mask file is empty. -/
def segEmptyMask : Segment :=
  { path := "/work/maskE.nrrd", name := "segE", maskKey := none,
    objectId := none, delete := false, baseSeg := 1, maskEmpty := true }

/-- A new segment with a valid mask. -/
def segGoodMask : Segment :=
  { path := "/work/maskG.nrrd", name := "segG", maskKey := none,
    objectId := none, delete := false, baseSeg := 2, maskEmpty := false }

/-- A second new segment with a valid mask. -/
def segGoodMask2 : Segment :=
  { path := "/work/maskH.nrrd", name := "segH", maskKey := none,
    objectId := none, delete := false, baseSeg := 3, maskEmpty := false }

/-- A sync state whose volume holds the empty-mask segment first, then a
valid new segment. -/
def stEmptyFirst : SyncState :=
  { volume :=
      { name := "CT001",
        segmentations :=
          [{ name := "Lung", segments := [segEmptyMask, segGoodMask],
             nodeSegments := [1, 2] }],
        tags := [], tagsChanged := false },
    ann := { objects := [], tags := [] },
    keyIdMap := { objects := [], figures := [], tags := [] },
    projectTagMetas := [], fresh := 0, remoteCalls := [], localCalls := [],
    err := none }

/-- A sync state whose volume holds a valid new segment, then the empty-mask
segment, then another valid new segment. -/
def stEmptyMiddle : SyncState :=
  { volume :=
      { name := "CT001",
        segmentations :=
          [{ name := "Lung",
             segments := [segGoodMask, segEmptyMask, segGoodMask2],
             nodeSegments := [1, 2, 3] }],
        tags := [], tagsChanged := false },
    ann := { objects := [], tags := [] },
    keyIdMap := { objects := [], figures := [], tags := [] },
    projectTagMetas := [], fresh := 0, remoteCalls := [], localCalls := [],
    err := none }

/-- Claim C4 counterexample: with the empty-mask segment first and a valid segment
after it, the pass raises the validation error naming the empty segment and
issues no remote call at all — the remaining valid segment of the same pass
is NOT synced, its `remoteKey` stays null, contradicting "continues syncing
the remaining segments". -/
theorem emptyMask_aborts_pass_cex :
    uploadAnnObjectChangesToServer stEmptyFirst
      = { stEmptyFirst with
          err := some (SyncError.validation "Segment segE is empty") } := by
  rfl

theorem syncSegment_err_noop (vn sn : String) (s : Segment) (st : SyncState)
    (h : st.err.isSome = true) : syncSegment vn sn s st = (s, st) := by
  simp [syncSegment, h]

theorem syncSegments_err_noop (vn sn : String) (ss : List Segment) :
    ∀ st : SyncState, st.err.isSome = true →
      syncSegments vn sn ss st = (ss, st) := by
  induction ss with
  | nil => intro st _; rfl
  | cons s rest ih =>
    intro st h
    simp [syncSegments, syncSegment_err_noop vn sn s st h, ih st h]

theorem syncSegmentations_err_noop (vn : String) (sgs : List Segmentation) :
    ∀ st : SyncState, st.err.isSome = true →
      syncSegmentations vn sgs st = (sgs, st) := by
  induction sgs with
  | nil => intro st _; rfl
  | cons sg rest ih =>
    intro st h
    simp [syncSegmentations, syncSegments_err_noop vn sg.name sg.segments st h,
      ih st h]

theorem removalPhase_err_noop (st1 : SyncState) (h : st1.err.isSome = true) :
    removalPhase st1 = st1 := by
  simp [removalPhase, h]

/-- Claim C4 amended: whenever creating a new segment fails because its mask is
empty, the creation step raises the `ValidationError` naming the offending
segment and changes nothing else; once the error is raised the rest of the
pass is inert — no later segment or segmentation is synced and the removal
phase is skipped — so segments processed earlier keep their completed
uploads while later ones are not synced in that run (a retry is needed for
them), as the concrete run with a valid segment before and after the empty
one shows. -/
theorem emptyMask_names_segment_and_aborts :
    (∀ (vn sn : String) (s : Segment) (st : SyncState),
        st.err = none → s.delete = false → s.maskKey = none →
        s.maskEmpty = true →
        syncSegment vn sn s st
          = (s, { st with
              err := some (SyncError.validation
                ("Segment " ++ s.name ++ " is empty")) }))
    ∧ (∀ (vn sn : String) (ss : List Segment) (st : SyncState),
        st.err.isSome = true → syncSegments vn sn ss st = (ss, st))
    ∧ (∀ (vn : String) (sgs : List Segmentation) (st : SyncState),
        st.err.isSome = true → syncSegmentations vn sgs st = (sgs, st))
    ∧ (∀ st1 : SyncState, st1.err.isSome = true → removalPhase st1 = st1)
    ∧ (uploadAnnObjectChangesToServer stEmptyMiddle).err
        = some (SyncError.validation ("Segment " ++ segEmptyMask.name ++ " is empty"))
    ∧ (uploadAnnObjectChangesToServer stEmptyMiddle).remoteCalls
        = [RemoteCall.getVolumeInfo "CT001", RemoteCall.appendAnn "CT001" "segG"]
    ∧ ((uploadAnnObjectChangesToServer stEmptyMiddle).volume.segmentations.map
          (fun sg => sg.segments.map Segment.maskKey))
        = [[some (mintFigureKey 0), none, none]] := by
  refine ⟨?_, syncSegments_err_noop, syncSegmentations_err_noop,
    removalPhase_err_noop, rfl, rfl, rfl⟩
  intro vn sn s st herr hdel hkey hmask
  simp [syncSegment, herr, hdel, hkey, hmask]

/-- A state carrying a pending validation error, on which the remaining
steps of a pass must be inert. -/
def stErrW : SyncState :=
  { stEmptyFirst with
    err := some (SyncError.validation "Segment segE is empty") }

/-- Witness for the amended C4 theorem: the empty-mask segment raises the
naming error at a concrete state, and the concrete errored state freezes the
segment loop, the segmentation loop and the removal phase. -/
theorem emptyMask_names_segment_and_aborts_witness :
    syncSegment "CT001" "Lung" segEmptyMask stEmptyFirst
        = (segEmptyMask, { stEmptyFirst with
            err := some (SyncError.validation
              ("Segment " ++ segEmptyMask.name ++ " is empty")) })
    ∧ syncSegments "CT001" "Lung" [segGoodMask] stErrW = ([segGoodMask], stErrW)
    ∧ syncSegmentations "CT001" stErrW.volume.segmentations stErrW
        = (stErrW.volume.segmentations, stErrW)
    ∧ removalPhase stErrW = stErrW := by
  exact ⟨emptyMask_names_segment_and_aborts.1 "CT001" "Lung" segEmptyMask
      stEmptyFirst rfl rfl rfl rfl,
    emptyMask_names_segment_and_aborts.2.1 "CT001" "Lung" [segGoodMask]
      stErrW rfl,
    emptyMask_names_segment_and_aborts.2.2.1 "CT001"
      stErrW.volume.segmentations stErrW rfl,
    emptyMask_names_segment_and_aborts.2.2.2.1 stErrW rfl⟩

/-- Whether a remote call is the batched object removal. -/
def RemoteCall.isRemoveBatch : RemoteCall → Bool
  | RemoteCall.removeBatch _ => true
  | _ => false

theorem syncSegment_appends (vn sn : String) (s : Segment) (st : SyncState) :
    ∃ ts, (syncSegment vn sn s st).2.remoteCalls = st.remoteCalls ++ ts
      ∧ ∀ c ∈ ts, c.isRemoveBatch = false := by
  unfold syncSegment
  split
  · exact ⟨[], by simp, by simp⟩
  · split
    · exact ⟨[], by simp, by simp⟩
    · split
      · next k _ =>
        exact ⟨[RemoteCall.uploadGeometries k], by simp,
          by simp [RemoteCall.isRemoveBatch]⟩
      · split
        · exact ⟨[], by simp, by simp⟩
        · exact ⟨[RemoteCall.getVolumeInfo vn, RemoteCall.appendAnn vn s.name],
            by simp, by simp [RemoteCall.isRemoveBatch]⟩

theorem syncSegments_appends (vn sn : String) (ss : List Segment) :
    ∀ st : SyncState,
      ∃ ts, (syncSegments vn sn ss st).2.remoteCalls = st.remoteCalls ++ ts
        ∧ ∀ c ∈ ts, c.isRemoveBatch = false := by
  induction ss with
  | nil => intro st; exact ⟨[], by simp [syncSegments], by simp⟩
  | cons s rest ih =>
    intro st
    obtain ⟨t1, h1, hn1⟩ := syncSegment_appends vn sn s st
    obtain ⟨t2, h2, hn2⟩ := ih (syncSegment vn sn s st).2
    refine ⟨t1 ++ t2, ?_, ?_⟩
    · simp only [syncSegments, h2, h1, List.append_assoc]
    · intro c hc
      rcases List.mem_append.1 hc with h | h
      · exact hn1 c h
      · exact hn2 c h

theorem syncSegmentations_appends (vn : String) (sgs : List Segmentation) :
    ∀ st : SyncState,
      ∃ ts, (syncSegmentations vn sgs st).2.remoteCalls = st.remoteCalls ++ ts
        ∧ ∀ c ∈ ts, c.isRemoveBatch = false := by
  induction sgs with
  | nil => intro st; exact ⟨[], by simp [syncSegmentations], by simp⟩
  | cons sg rest ih =>
    intro st
    obtain ⟨t1, h1, hn1⟩ := syncSegments_appends vn sg.name sg.segments st
    obtain ⟨t2, h2, hn2⟩ := ih (syncSegments vn sg.name sg.segments st).2
    refine ⟨t1 ++ t2, ?_, ?_⟩
    · simp only [syncSegmentations, h2, h1, List.append_assoc]
    · intro c hc
      rcases List.mem_append.1 hc with h | h
      · exact hn1 c h
      · exact hn2 c h

/-- A segment already synced (with server object id 10) and marked for
deletion. -/
def segDel10 : Segment :=
  { path := "/work/key-10.nrrd", name := "seg10", maskKey := some "key-10",
    objectId := some 10, delete := true, baseSeg := 4, maskEmpty := false }

/-- A segment already synced (with server object id 11) and marked for
deletion. -/
def segDel11 : Segment :=
  { path := "/work/key-11.nrrd", name := "seg11", maskKey := some "key-11",
    objectId := some 11, delete := true, baseSeg := 5, maskEmpty := false }

/-- A new segment with no server id. -/
def segNewMixed : Segment :=
  { path := "/work/maskNew.nrrd", name := "segNew", maskKey := none,
    objectId := none, delete := false, baseSeg := 6, maskEmpty := false }

/-- The mixed-deletion scenario: two segments marked for deletion holding
server ids 10 and 11 plus one new segment. -/
def stMixed : SyncState :=
  { volume :=
      { name := "CT001",
        segmentations :=
          [{ name := "Lung", segments := [segDel10, segDel11, segNewMixed],
             nodeSegments := [6] }],
        tags := [], tagsChanged := false },
    ann := { objects := [⟨"okey-10", "Lung"⟩, ⟨"okey-11", "Lung"⟩], tags := [] },
    keyIdMap :=
      { objects := [("okey-10", 10), ("okey-11", 11)],
        figures := [("key-10", 110), ("key-11", 111)], tags := [] },
    projectTagMetas := [], fresh := 0, remoteCalls := [], localCalls := [],
    err := none }

/-- Claim C2: in every run of `uploadAnnObjectChangesToServer`, the remote calls it
appends split into a first block containing no batched removal (all
creations/updates) followed by at most one batched removal call; in the
mixed-deletion scenario the run issues exactly one creation followed by one
batched removal carrying ids [10, 11]. -/
theorem creations_before_single_batched_removal (st : SyncState) :
    (∃ ts dels,
      (uploadAnnObjectChangesToServer st).remoteCalls
          = st.remoteCalls ++ ts ++ dels
      ∧ (∀ c ∈ ts, c.isRemoveBatch = false)
      ∧ (dels = [] ∨ ∃ ids, dels = [RemoteCall.removeBatch ids]))
    ∧ (uploadAnnObjectChangesToServer stMixed).remoteCalls
        = [RemoteCall.getVolumeInfo "CT001", RemoteCall.appendAnn "CT001" "segNew",
           RemoteCall.removeBatch [some 10, some 11]] := by
  refine ⟨?_, rfl⟩
  obtain ⟨ts, hts, hno⟩ :=
    syncSegmentations_appends st.volume.name st.volume.segmentations st
  have hcp : (creationPhase st).remoteCalls = st.remoteCalls ++ ts := hts
  unfold uploadAnnObjectChangesToServer removalPhase
  split
  · exact ⟨ts, [], by simpa using hcp, hno, Or.inl rfl⟩
  · split
    · exact ⟨ts, [], by simpa using hcp, hno, Or.inl rfl⟩
    · split
      · exact ⟨ts, [], by simpa using hcp, hno, Or.inl rfl⟩
      · next ids keys figKeys _ _ =>
        refine ⟨ts, [RemoteCall.removeBatch ids], ?_, hno, Or.inr ⟨ids, rfl⟩⟩
        simp [hcp, List.append_assoc]

theorem find?_append_right {α : Type} (p : α → Bool) (l1 l2 : List α)
    (h : ∀ a ∈ l1, p a = false) : (l1 ++ l2).find? p = l2.find? p := by
  induction l1 with
  | nil => simp
  | cons x xs ih =>
    have hx := h x (by simp)
    rw [List.cons_append, List.find?_cons_of_neg _ (by simp [hx])]
    exact ih (fun a ha => h a (by simp [ha]))

/-- Claim C5: creating a segment with a null `remoteKey` and a valid mask leaves
its `remoteKey`/`remoteObjectId` non-null, both resolving through the key ↔
id map in both directions, renames the local mask file to the minted figure
key, and persists the annotation snapshot and the key ↔ id map.  The
freshness hypotheses state that the server-minted key and id are new to the
map, as uuid minting guarantees. -/
theorem syncSegment_create_binds_and_persists (vn sn : String) (s : Segment)
    (st : SyncState) (herr : st.err = none) (hdel : s.delete = false)
    (hkey : s.maskKey = none) (hmask : s.maskEmpty = false)
    (hofresh : ∀ q ∈ st.keyIdMap.objects,
      q.1 ≠ mintObjectKey st.fresh ∧ q.2 ≠ st.fresh)
    (hffresh : ∀ q ∈ st.keyIdMap.figures,
      q.1 ≠ mintFigureKey st.fresh ∧ q.2 ≠ st.fresh) :
    (syncSegment vn sn s st).1.maskKey = some (mintFigureKey st.fresh)
    ∧ (syncSegment vn sn s st).1.objectId = some st.fresh
    ∧ (syncSegment vn sn s st).2.keyIdMap.getObjectId (mintObjectKey st.fresh)
        = some st.fresh
    ∧ (syncSegment vn sn s st).2.keyIdMap.getObjectKey (some st.fresh)
        = some (mintObjectKey st.fresh)
    ∧ (syncSegment vn sn s st).2.keyIdMap.getFigureId (mintFigureKey st.fresh)
        = some st.fresh
    ∧ (syncSegment vn sn s st).2.keyIdMap.getFigureKey (some st.fresh)
        = some (mintFigureKey st.fresh)
    ∧ (syncSegment vn sn s st).1.path
        = dirname s.path ++ "/" ++ mintFigureKey st.fresh ++ ".nrrd"
    ∧ (syncSegment vn sn s st).2.localCalls
        = st.localCalls ++
            [LocalCall.rename s.path
              (dirname s.path ++ "/" ++ mintFigureKey st.fresh ++ ".nrrd"),
             LocalCall.dumpAnn, LocalCall.dumpKeyIdMap]
    ∧ (syncSegment vn sn s st).2.remoteCalls
        = st.remoteCalls ++
            [RemoteCall.getVolumeInfo vn, RemoteCall.appendAnn vn s.name] := by
  have hObjNone : ∀ q ∈ st.keyIdMap.objects,
      (decide (q.1 = mintObjectKey st.fresh) : Bool) = false := by
    intro q hq
    simpa using (hofresh q hq).1
  have hObjIdNone : ∀ q ∈ st.keyIdMap.objects,
      (decide (q.2 = st.fresh) : Bool) = false := by
    intro q hq
    simpa using (hofresh q hq).2
  have hFigNone : ∀ q ∈ st.keyIdMap.figures,
      (decide (q.1 = mintFigureKey st.fresh) : Bool) = false := by
    intro q hq
    simpa using (hffresh q hq).1
  have hFigIdNone : ∀ q ∈ st.keyIdMap.figures,
      (decide (q.2 = st.fresh) : Bool) = false := by
    intro q hq
    simpa using (hffresh q hq).2
  refine ⟨?_, ?_, ?_, ?_, ?_, ?_, ?_, ?_, ?_⟩ <;>
    simp only [syncSegment, herr, hdel, hkey, hmask, Option.isSome_none,
      Bool.false_eq_true, if_false, ite_false] <;>
    first
      | rfl
      | simp [KeyIdMap.getObjectId, KeyIdMap.getObjectKey, KeyIdMap.getFigureId,
          KeyIdMap.getFigureKey, find?_append_right _ _ _ hObjNone,
          find?_append_right _ _ _ hObjIdNone, find?_append_right _ _ _ hFigNone,
          find?_append_right _ _ _ hFigIdNone]

/-- A state with empty key ↔ id map on which the creation step of the sync
executor runs. -/
def stCreateW : SyncState :=
  { volume :=
      { name := "CT001",
        segmentations :=
          [{ name := "Lung", segments := [segGoodMask], nodeSegments := [2] }],
        tags := [], tagsChanged := false },
    ann := { objects := [], tags := [] },
    keyIdMap := { objects := [], figures := [], tags := [] },
    projectTagMetas := [], fresh := 0, remoteCalls := [], localCalls := [],
    err := none }

/-- Witness for C5 at a concrete new segment and empty map. -/
theorem syncSegment_create_binds_and_persists_witness :
    (syncSegment "CT001" "Lung" segGoodMask stCreateW).1.maskKey
        = some (mintFigureKey 0)
    ∧ (syncSegment "CT001" "Lung" segGoodMask stCreateW).1.objectId = some 0
    ∧ (syncSegment "CT001" "Lung" segGoodMask stCreateW).2.keyIdMap.getObjectId
        (mintObjectKey 0) = some 0 := by
  have h := syncSegment_create_binds_and_persists "CT001" "Lung" segGoodMask
    stCreateW rfl rfl rfl rfl (by simp [stCreateW]) (by simp [stCreateW])
  exact ⟨h.1, h.2.1, h.2.2.1⟩

/-- Segment X of the crash-recovery scenario: already created server-side
(its `remoteKey` was persisted before the interruption). -/
def segSyncedX : Segment :=
  { path := "/work/key-x.nrrd", name := "segX", maskKey := some "key-x",
    objectId := some 7, delete := false, baseSeg := 8, maskEmpty := false }

/-- Segment Y of the crash-recovery scenario: still unsynced. -/
def segUnsyncedY : Segment :=
  { path := "/work/maskY.nrrd", name := "segY", maskKey := none,
    objectId := none, delete := false, baseSeg := 9, maskEmpty := false }

/-- The state of the second pass after an interruption between creating X
and creating Y. -/
def stInterrupted : SyncState :=
  { volume :=
      { name := "CT001",
        segmentations :=
          [{ name := "Lung", segments := [segSyncedX, segUnsyncedY],
             nodeSegments := [8, 9] }],
        tags := [], tagsChanged := false },
    ann := { objects := [⟨"okey-x", "Lung"⟩], tags := [] },
    keyIdMap := { objects := [("okey-x", 7)], figures := [("key-x", 70)],
                  tags := [] },
    projectTagMetas := [], fresh := 0, remoteCalls := [], localCalls := [],
    err := none }

/-- Claim C6: a segment that already has a `remoteKey` is routed to the
update-in-place branch — one geometry re-upload keyed by the existing
`remoteKey`, the segment and the whole state (map, counter, snapshot)
otherwise untouched, so no new id is minted; consequently, in the
interrupted-pass scenario the second pass re-uploads X in place and creates
only Y. -/
theorem remoteKey_routes_to_update_in_place (vn sn : String) (s : Segment)
    (st : SyncState) (k : String) (herr : st.err = none)
    (hdel : s.delete = false) (hkey : s.maskKey = some k) :
    syncSegment vn sn s st
        = (s, { st with
            remoteCalls := st.remoteCalls ++ [RemoteCall.uploadGeometries k] })
    ∧ (uploadAnnObjectChangesToServer stInterrupted).remoteCalls
        = [RemoteCall.uploadGeometries "key-x",
           RemoteCall.getVolumeInfo "CT001", RemoteCall.appendAnn "CT001" "segY"]
    ∧ ((uploadAnnObjectChangesToServer stInterrupted).volume.segmentations.map
          (fun sg => sg.segments.map Segment.maskKey))
        = [[some "key-x", some (mintFigureKey 0)]]
    ∧ ((uploadAnnObjectChangesToServer stInterrupted).volume.segmentations.map
          (fun sg => sg.segments.map Segment.objectId))
        = [[some 7, some 0]] := by
  refine ⟨?_, rfl, rfl, rfl⟩
  simp [syncSegment, herr, hdel, hkey]

/-- Witness for C6 at segment X of the crash-recovery scenario. -/
theorem remoteKey_routes_to_update_in_place_witness :
    syncSegment "CT001" "Lung" segSyncedX stInterrupted
      = (segSyncedX, { stInterrupted with
          remoteCalls := stInterrupted.remoteCalls
            ++ [RemoteCall.uploadGeometries "key-x"] }) :=
  (remoteKey_routes_to_update_in_place "CT001" "Lung" segSyncedX stInterrupted
    "key-x" rfl rfl rfl).1

/-- A state whose volume has clean tags (`tagsChanged = false`). -/
def stTagsClean : SyncState :=
  { volume :=
      { name := "CT001", segmentations := [],
        tags := [⟨"Reviewed", none⟩], tagsChanged := false },
    ann := { objects := [],
             tags := [⟨"Reviewed", none, "tkey-1"⟩] },
    keyIdMap := { objects := [], figures := [], tags := [("tkey-1", 41)] },
    projectTagMetas := [("Reviewed", 4)], fresh := 0,
    remoteCalls := [], localCalls := [], err := none }

/-- The tag-toggle scenario: a tag added then removed before any sync, with
an empty last-synced tag set — `tagsChanged` is true but both diffs are
empty. -/
def stTagToggle : SyncState :=
  { volume :=
      { name := "CT001", segmentations := [], tags := [], tagsChanged := true },
    ann := { objects := [], tags := [] },
    keyIdMap := { objects := [], figures := [], tags := [] },
    projectTagMetas := [("Reviewed", 4)], fresh := 0,
    remoteCalls := [], localCalls := [], err := none }

/-- Claim C7: `uploadTagsChangesToServer` is a complete no-op when `tagsChanged` is
false; and when `tagsChanged` is true but both tag diffs are empty, it issues
zero remote calls yet still clears `tagsChanged`. -/
theorem uploadTags_noop_and_clears_dirty (st : SyncState) :
    (st.volume.tagsChanged = false → uploadTagsChangesToServer st = st)
    ∧ (st.err = none → st.volume.tagsChanged = true →
        tagsToAddL st.volume.tags st.ann.tags = [] →
        tagsToRemoveL st.volume.tags st.ann.tags = [] →
        (uploadTagsChangesToServer st).remoteCalls = st.remoteCalls
        ∧ (uploadTagsChangesToServer st).volume.tagsChanged = false) := by
  constructor
  · intro h
    simp [uploadTagsChangesToServer, h]
  · intro herr hch hadd hrem
    unfold uploadTagsChangesToServer
    rw [hadd, hrem]
    simp [hch, herr, processTagRemovals, processTagAdds]

/-- Witness for C7 at the clean state and the tag-toggle scenario. -/
theorem uploadTags_noop_and_clears_dirty_witness :
    uploadTagsChangesToServer stTagsClean = stTagsClean
    ∧ (uploadTagsChangesToServer stTagToggle).remoteCalls
        = stTagToggle.remoteCalls
    ∧ (uploadTagsChangesToServer stTagToggle).volume.tagsChanged = false := by
  refine ⟨(uploadTags_noop_and_clears_dirty stTagsClean).1 rfl, ?_, ?_⟩
  · exact ((uploadTags_noop_and_clears_dirty stTagToggle).2 rfl rfl rfl rfl).1
  · exact ((uploadTags_noop_and_clears_dirty stTagToggle).2 rfl rfl rfl rfl).2

end SlicerSly
